import Mathlib

/-!
The resolvers of `main.go` (golang-graphql) over the in-memory dataset.

The program keeps two slices, `tutorials` and `authors`, filled once by `populate`, and
registers four query resolvers (`tutorial`, `author`, `tutorialList`, `authorList`) and one
mutation resolver (`createTutorial`) that close over them.

Embedding:
* the two captured slices are an explicit `Dataset` that every resolver receives and returns;
* a Go `interface{}` argument value is a `Value`; `map[string]interface{}` is an association
  list read with `index`, which yields the nil interface for an absent key;
* `x.(T)` in its one-result form panics when the dynamic type is not `T`: the assertion
  functions return `Option` and the resolver turns `none` into `Outcome.panicked`;
  the two-result form `v, ok := x.(T)` is the same `Option` read without a panic;
* Go `int` values are `Int`: the resolvers only compare and copy them.
-/

namespace GolangGraphql

/-! ## Data model (`main.go` lines 12-27) -/

/-- The `Comment` struct. -/
structure Comment where
  Body : String
deriving DecidableEq, Repr

/-- The `Author` struct. -/
structure Author where
  ID : Int
  Name : String
  Tutorials : List Int
deriving DecidableEq, Repr

/-- The `Tutorial` struct. -/
structure Tutorial where
  ID : Int
  Title : String
  Author : Author
  Comments : List Comment
deriving DecidableEq, Repr

/-- The two slices captured by the resolver closures in `main`. -/
structure Dataset where
  tutorials : List Tutorial
  authors : List Author
deriving DecidableEq, Repr

/-! ## Argument values -/

/-- A dynamic value held in a Go `interface{}` of the argument map. -/
inductive Value where
  | null
  | int (n : Int)
  | str (s : String)
  | bool (b : Bool)
  | list (items : List Value)
  | map (entries : List (String × Value))

/-- A Go `map[string]interface{}`. -/
abbrev Args := List (String × Value)

/-- The map index expression `m[key]`: the nil interface when the key is absent. -/
def index (m : Args) (key : String) : Value :=
  match m.lookup key with
  | some v => v
  | none => Value.null

/-- The type assertion `x.(int)`; `none` when the dynamic type is not `int`. -/
def Value.assertInt : Value → Option Int
  | Value.int n => some n
  | _ => none

/-- The type assertion `x.(string)`; `none` when the dynamic type is not `string`. -/
def Value.assertString : Value → Option String
  | Value.str s => some s
  | _ => none

/-- The type assertion `x.(map[string]interface{})`. -/
def Value.assertMap : Value → Option Args
  | Value.map entries => some entries
  | _ => none

/-! ## Resolver results -/

/-- The dynamic value a resolver hands back in its `interface{}` result. -/
inductive Result where
  | null
  | tutorial (t : Tutorial)
  | author (a : Author)
  | tutorialList (ts : List Tutorial)
  | authorList (as : List Author)
deriving DecidableEq, Repr

/-- How a resolver call ends: it returns `(value, err)` or a type assertion panics. -/
inductive Outcome where
  | returned (value : Result) (err : Option String)
  | panicked
deriving DecidableEq, Repr

/-- A resolver closure: it reads the captured slices and may replace them. -/
abbrev Resolver := Dataset → Args → Outcome × Dataset

/-! ## `populate` (lines 89-118) -/

/-- The local `author1` of `populate`. -/
def author1 : Author := { ID := 1, Name := "Elliot Forbes", Tutorials := [1] }

/-- The local `author2` of `populate`. -/
def author2 : Author := { ID := 2, Name := "Max Lopez", Tutorials := [2] }

/-- The local `tutorial1` of `populate`. -/
def tutorial1 : Tutorial :=
  { ID := 1, Title := "Go GraphQL Tutorial", Author := author1,
    Comments := [{ Body := "First Comment" }] }

/-- The local `tutorial2` of `populate`. -/
def tutorial2 : Tutorial :=
  { ID := 2, Title := "Pandit Football Tutorial", Author := author2,
    Comments := [{ Body := "Second Comment" }] }

/-- The function `populate`: two appends to each (initially nil) slice. -/
def populate : Dataset :=
  { tutorials := ([] ++ [tutorial1]) ++ [tutorial2],
    authors := ([] ++ [author1]) ++ [author2] }

/-! ## Query resolvers (lines 122-177) -/

/-- The loop `for _, tutorial := range tutorials` of the `tutorial` resolver:
the first element whose `ID` equals `id` is returned, `none` when the loop falls through. -/
def tutorialLoop (id : Int) : List Tutorial → Option Tutorial
  | [] => none
  | tutorial :: rest => if tutorial.ID = id then some tutorial else tutorialLoop id rest

/-- The loop `for _, author := range authors` of the `author` resolver. -/
def authorLoop (id : Int) : List Author → Option Author
  | [] => none
  | author :: rest => if author.ID = id then some author else authorLoop id rest

/-- The `Resolve` of the `tutorial` field ("Get Tutorial By ID"). -/
def tutorialResolve : Resolver := fun d args =>
  match (index args "id").assertInt with
  | some id =>
    match tutorialLoop id d.tutorials with
    | some tutorial => (Outcome.returned (Result.tutorial tutorial) none, d)
    | none => (Outcome.returned Result.null none, d)
  | none => (Outcome.returned Result.null none, d)

/-- The `Resolve` of the `author` field ("Get Author By ID"). -/
def authorResolve : Resolver := fun d args =>
  match (index args "id").assertInt with
  | some id =>
    match authorLoop id d.authors with
    | some author => (Outcome.returned (Result.author author) none, d)
    | none => (Outcome.returned Result.null none, d)
  | none => (Outcome.returned Result.null none, d)

/-- The `Resolve` of the `tutorialList` field. -/
def tutorialListResolve : Resolver := fun d _ =>
  (Outcome.returned (Result.tutorialList d.tutorials) none, d)

/-- The `Resolve` of the `authorList` field. -/
def authorListResolve : Resolver := fun d _ =>
  (Outcome.returned (Result.authorList d.authors) none, d)

/-- The map `fields` of `main`: the resolvers of the root query type. -/
def fields : List (String × Resolver) :=
  [("tutorial", tutorialResolve), ("author", authorResolve),
   ("tutorialList", tutorialListResolve), ("authorList", authorListResolve)]

/-! ## Mutation resolver (lines 179-211) -/

/-- The `Resolve` of the `createTutorial` field. The five one-result type assertions run in
source order (`author`, `author["id"]`, `author["name"]`, `id`, `title`), each panicking when
it fails; only then is the new tutorial appended and returned. -/
def createTutorial : Resolver := fun d args =>
  match (index args "author").assertMap with
  | none => (Outcome.panicked, d)
  | some author =>
    match (index author "id").assertInt with
    | none => (Outcome.panicked, d)
    | some authorID =>
      match (index author "name").assertString with
      | none => (Outcome.panicked, d)
      | some authorName =>
        let authorType : Author := { ID := authorID, Name := authorName, Tutorials := [] }
        match (index args "id").assertInt with
        | none => (Outcome.panicked, d)
        | some id =>
          match (index args "title").assertString with
          | none => (Outcome.panicked, d)
          | some title =>
            let tutorial : Tutorial :=
              { ID := id, Title := title, Author := authorType, Comments := [] }
            (Outcome.returned (Result.tutorial tutorial) none,
              { d with tutorials := d.tutorials ++ [tutorial] })

/-- The map `mutationFields` of `main`: the resolvers of the root mutation type. -/
def mutationFields : List (String × Resolver) :=
  [("createTutorial", createTutorial)]

/-! ## Declared arguments (lines 77-87, 126-130, 146-150, 183-193) -/

/-- The scalar types used in the schema: `graphql.Int` and `graphql.String`. -/
inductive Scalar where
  | Int
  | String
deriving DecidableEq, Repr

/-- An input object type: its name and its fields, each declared with a nullable scalar. -/
structure InputObject where
  name : String
  inputFields : List (String × Scalar)
deriving DecidableEq, Repr

/-- The `Type` of an `ArgumentConfig` as it occurs in `main.go`: a scalar, a scalar wrapped
in `graphql.NewNonNull`, or an input object. -/
inductive ArgType where
  | scalar (s : Scalar)
  | nonNull (s : Scalar)
  | input (o : InputObject)
deriving DecidableEq, Repr

/-- The variable `AuthorInput`: fields `id: Int` and `name: String`, neither non-null. -/
def AuthorInput : InputObject :=
  { name := "AuthorInput", inputFields := [("id", Scalar.Int), ("name", Scalar.String)] }

/-- The `Args` of the `tutorial` field. -/
def tutorialArgs : List (String × ArgType) := [("id", ArgType.scalar Scalar.Int)]

/-- The `Args` of the `author` field. -/
def authorArgs : List (String × ArgType) := [("id", ArgType.scalar Scalar.Int)]

/-- The `Args` of the `createTutorial` field: `id` and `title` are non-null, `author` is
a nullable `AuthorInput`. -/
def createTutorialArgs : List (String × ArgType) :=
  [("id", ArgType.nonNull Scalar.Int), ("author", ArgType.input AuthorInput),
   ("title", ArgType.nonNull Scalar.String)]

/-- A value is of the kind of a scalar type: an `int` for `Int`, a `string` for `String`. -/
def Scalar.admits : Scalar → Value → Bool
  | Scalar.Int, Value.int _ => true
  | Scalar.String, Value.str _ => true
  | _, _ => false

/-- A value is absent: the key is missing from the map, so indexing gives the nil interface. -/
def Value.isAbsent : Value → Bool
  | Value.null => true
  | _ => false

/-- A value conforms to a declared argument type: a non-null argument is present with the
declared kind; a nullable scalar is absent or of the declared kind; an input object is absent
or a map each of whose declared fields is absent or of the declared kind. -/
def ArgType.admits : ArgType → Value → Bool
  | ArgType.nonNull s, v => s.admits v
  | ArgType.scalar s, v => v.isAbsent || s.admits v
  | ArgType.input _, Value.null => true
  | ArgType.input o, Value.map entries =>
    o.inputFields.all fun f => (index entries f.1).isAbsent || f.2.admits (index entries f.1)
  | ArgType.input _, _ => false

/-- An argument map conforms to the declared arguments of a field. -/
def conforms (declared : List (String × ArgType)) (args : Args) : Bool :=
  declared.all fun a => a.2.admits (index args a.1)

/-! ## Example inputs -/

/-- The arguments of the mutation in the example request of `main`:
`createTutorial(title: "Hello World", id: 5, author: ...)` with author id 10. -/
def helloArgs : Args :=
  [("title", Value.str "Hello World"), ("id", Value.int 5),
   ("author", Value.map [("id", Value.int 10), ("name", Value.str "Ann")])]

/-- The tutorial that `createTutorial` builds from `helloArgs`. -/
def helloTutorial : Tutorial :=
  { ID := 5, Title := "Hello World",
    Author := { ID := 10, Name := "Ann", Tutorials := [] }, Comments := [] }

/-- A well-formed mutation whose id, 1, is already the id of a seeded tutorial. -/
def clashArgs : Args :=
  [("title", Value.str "Hello World"), ("id", Value.int 1),
   ("author", Value.map [("id", Value.int 10), ("name", Value.str "Ann")])]

/-- The tutorial that `createTutorial` builds from `clashArgs`. -/
def clashTutorial : Tutorial :=
  { ID := 1, Title := "Hello World",
    Author := { ID := 10, Name := "Ann", Tutorials := [] }, Comments := [] }

/-- A second well-formed mutation with id 5, to run after `helloArgs`. -/
def againArgs : Args :=
  [("title", Value.str "Hello Again"), ("id", Value.int 5),
   ("author", Value.map [("id", Value.int 11), ("name", Value.str "Bob")])]

/-- A mutation with the two required arguments and without the optional `author`. -/
def noAuthorArgs : Args :=
  [("title", Value.str "Hello World"), ("id", Value.int 5)]

/-- A mutation whose `author` input gives the optional `id` and omits the optional `name`. -/
def noNameArgs : Args :=
  [("title", Value.str "Hello World"), ("id", Value.int 5),
   ("author", Value.map [("id", Value.int 10)])]

/-- A mutation without the required `id`. -/
def noIdArgs : Args :=
  [("title", Value.str "Hello World"),
   ("author", Value.map [("id", Value.int 10), ("name", Value.str "Ann")])]

/-! ## Lemmas on the lookup loops -/

theorem tutorialLoop_eq_none (id : Int) (ts : List Tutorial) :
    tutorialLoop id ts = none ↔ ∀ x ∈ ts, x.ID ≠ id := by
  induction ts with
  | nil => simp [tutorialLoop]
  | cons t rest ih =>
    by_cases h : t.ID = id
    · simp [tutorialLoop, h]
    · simp [tutorialLoop, h, ih]

theorem tutorialLoop_eq_some (id : Int) (ts : List Tutorial) (t : Tutorial)
    (h : tutorialLoop id ts = some t) :
    ∃ pre post, ts = pre ++ t :: post ∧ t.ID = id ∧ ∀ x ∈ pre, x.ID ≠ id := by
  induction ts with
  | nil => simp [tutorialLoop] at h
  | cons u rest ih =>
    by_cases hu : u.ID = id
    · simp [tutorialLoop, hu] at h
      subst h
      exact ⟨[], rest, by simp, hu, by simp⟩
    · simp [tutorialLoop, hu] at h
      obtain ⟨pre, post, hsplit, hid, hpre⟩ := ih h
      refine ⟨u :: pre, post, by simp [hsplit], hid, ?_⟩
      intro x hx
      rcases List.mem_cons.mp hx with hx | hx
      · subst hx; exact hu
      · exact hpre x hx

theorem tutorialLoop_append_fresh (id : Int) (ts : List Tutorial) (t : Tutorial)
    (hfresh : ∀ x ∈ ts, x.ID ≠ id) (hid : t.ID = id) :
    tutorialLoop id (ts ++ [t]) = some t := by
  induction ts with
  | nil => simp [tutorialLoop, hid]
  | cons u rest ih =>
    have hu : u.ID ≠ id := hfresh u (by simp)
    have hrest : ∀ x ∈ rest, x.ID ≠ id := fun x hx => hfresh x (by simp [hx])
    simp [tutorialLoop, hu, ih hrest]

theorem tutorialLoop_append_of_some (id : Int) (ts : List Tutorial) (t u : Tutorial)
    (h : tutorialLoop id ts = some t) :
    tutorialLoop id (ts ++ [u]) = some t := by
  induction ts with
  | nil => simp [tutorialLoop] at h
  | cons v rest ih =>
    by_cases hv : v.ID = id
    · simp [tutorialLoop, hv] at h ⊢
      exact h
    · simp [tutorialLoop, hv] at h ⊢
      exact ih h

theorem authorLoop_eq_none (id : Int) (as : List Author) :
    authorLoop id as = none ↔ ∀ x ∈ as, x.ID ≠ id := by
  induction as with
  | nil => simp [authorLoop]
  | cons a rest ih =>
    by_cases h : a.ID = id
    · simp [authorLoop, h]
    · simp [authorLoop, h, ih]

theorem authorLoop_eq_some (id : Int) (as : List Author) (a : Author)
    (h : authorLoop id as = some a) :
    ∃ pre post, as = pre ++ a :: post ∧ a.ID = id ∧ ∀ x ∈ pre, x.ID ≠ id := by
  induction as with
  | nil => simp [authorLoop] at h
  | cons u rest ih =>
    by_cases hu : u.ID = id
    · simp [authorLoop, hu] at h
      subst h
      exact ⟨[], rest, by simp, hu, by simp⟩
    · simp [authorLoop, hu] at h
      obtain ⟨pre, post, hsplit, hid, hpre⟩ := ih h
      refine ⟨u :: pre, post, by simp [hsplit], hid, ?_⟩
      intro x hx
      rcases List.mem_cons.mp hx with hx | hx
      · subst hx; exact hu
      · exact hpre x hx

/-! ## Lemmas on the query resolvers -/

theorem tutorialResolve_snd (d : Dataset) (args : Args) : (tutorialResolve d args).2 = d := by
  unfold tutorialResolve
  split
  · split <;> rfl
  · rfl

theorem authorResolve_snd (d : Dataset) (args : Args) : (authorResolve d args).2 = d := by
  unfold authorResolve
  split
  · split <;> rfl
  · rfl

theorem tutorialResolve_returns (d : Dataset) (args : Args) :
    ∃ v, (tutorialResolve d args).1 = Outcome.returned v none := by
  unfold tutorialResolve
  split
  · split <;> exact ⟨_, rfl⟩
  · exact ⟨_, rfl⟩

theorem authorResolve_returns (d : Dataset) (args : Args) :
    ∃ v, (authorResolve d args).1 = Outcome.returned v none := by
  unfold authorResolve
  split
  · split <;> exact ⟨_, rfl⟩
  · exact ⟨_, rfl⟩

/-- The result of the `author` resolver depends on the author list only. -/
theorem authorResolve_fst_congr (d e : Dataset) (args : Args) (h : d.authors = e.authors) :
    (authorResolve d args).1 = (authorResolve e args).1 := by
  unfold authorResolve
  rw [h]
  split
  · split <;> rfl
  · rfl

/-! ## Lemmas on `createTutorial` -/

/-- With all five assertions succeeding, the call appends the built tutorial and returns it. -/
theorem createTutorial_wellFormed (d : Dataset) (args author : Args) (id authorID : Int)
    (title authorName : String)
    (hid : index args "id" = Value.int id) (htitle : index args "title" = Value.str title)
    (hauthor : index args "author" = Value.map author)
    (haid : index author "id" = Value.int authorID)
    (hname : index author "name" = Value.str authorName) :
    createTutorial d args =
      (Outcome.returned (Result.tutorial
          { ID := id, Title := title,
            Author := { ID := authorID, Name := authorName, Tutorials := [] },
            Comments := [] }) none,
        { tutorials := d.tutorials ++
            [{ ID := id, Title := title,
               Author := { ID := authorID, Name := authorName, Tutorials := [] },
               Comments := [] }],
          authors := d.authors }) := by
  simp [createTutorial, hid, htitle, hauthor, haid, hname, Value.assertInt,
    Value.assertString, Value.assertMap]

theorem assertInt_eq_some (v : Value) (n : Int) (h : v.assertInt = some n) :
    v = Value.int n := by
  cases v <;> simp [Value.assertInt] at h
  rw [h]

theorem assertString_eq_some (v : Value) (s : String) (h : v.assertString = some s) :
    v = Value.str s := by
  cases v <;> simp [Value.assertString] at h
  rw [h]

theorem assertMap_eq_some (v : Value) (m : Args) (h : v.assertMap = some m) :
    v = Value.map m := by
  cases v <;> simp [Value.assertMap] at h
  rw [h]

/-- Every call either panics and leaves the dataset alone, or all five assertions held. -/
theorem createTutorial_cases (d : Dataset) (args : Args) :
    createTutorial d args = (Outcome.panicked, d) ∨
    ∃ (author : Args) (id authorID : Int) (title authorName : String),
      index args "id" = Value.int id ∧ index args "title" = Value.str title ∧
      index args "author" = Value.map author ∧ index author "id" = Value.int authorID ∧
      index author "name" = Value.str authorName := by
  cases h1 : (index args "author").assertMap with
  | none => left; simp [createTutorial, h1]
  | some author =>
    cases h2 : (index author "id").assertInt with
    | none => left; simp [createTutorial, h1, h2]
    | some authorID =>
      cases h3 : (index author "name").assertString with
      | none => left; simp [createTutorial, h1, h2, h3]
      | some authorName =>
        cases h4 : (index args "id").assertInt with
        | none => left; simp [createTutorial, h1, h2, h3, h4]
        | some id =>
          cases h5 : (index args "title").assertString with
          | none => left; simp [createTutorial, h1, h2, h3, h4, h5]
          | some title =>
            right
            exact ⟨author, id, authorID, title, authorName,
              assertInt_eq_some _ _ h4, assertString_eq_some _ _ h5,
              assertMap_eq_some _ _ h1, assertInt_eq_some _ _ h2,
              assertString_eq_some _ _ h3⟩

/-- A panicking call returns the dataset it was given; a returning call changes only
the tutorial list. -/
theorem createTutorial_authors (d : Dataset) (args : Args) :
    (createTutorial d args).2.authors = d.authors := by
  rcases createTutorial_cases d args with h | ⟨author, id, authorID, title, authorName,
    hid, htitle, hauthor, haid, hname⟩
  · rw [h]
  · rw [createTutorial_wellFormed d args author id authorID title authorName
      hid htitle hauthor haid hname]

theorem index_of_lookup_none (m : Args) (key : String) (h : m.lookup key = none) :
    index m key = Value.null := by
  simp [index, h]

/-! ## The claims -/

/-- C1 (amended): create-then-get round trip. A `createTutorial` call with an Int id, a
String title and a well-formed author input returns the new tutorial. When no tutorial of
the dataset already has the given id, the `tutorial` resolver run with the same id on the
dataset right after the mutation returns that new tutorial. When a tutorial with that id is
already in the list, the resolver returns the first tutorial in list order with that id,
which is the earlier one. -/
theorem create_then_get_first_match (d : Dataset) (args author query : Args)
    (id authorID : Int) (title authorName : String)
    (hid : index args "id" = Value.int id) (htitle : index args "title" = Value.str title)
    (hauthor : index args "author" = Value.map author)
    (haid : index author "id" = Value.int authorID)
    (hname : index author "name" = Value.str authorName)
    (hquery : index query "id" = Value.int id) :
    (createTutorial d args).1 =
      Outcome.returned (Result.tutorial
        { ID := id, Title := title,
          Author := { ID := authorID, Name := authorName, Tutorials := [] },
          Comments := [] }) none ∧
    ((∀ t ∈ d.tutorials, t.ID ≠ id) →
      (tutorialResolve (createTutorial d args).2 query).1 =
        Outcome.returned (Result.tutorial
          { ID := id, Title := title,
            Author := { ID := authorID, Name := authorName, Tutorials := [] },
            Comments := [] }) none) ∧
    ((∃ t ∈ d.tutorials, t.ID = id) →
      ∃ pre t post, d.tutorials = pre ++ t :: post ∧ t.ID = id ∧ (∀ x ∈ pre, x.ID ≠ id) ∧
        (tutorialResolve (createTutorial d args).2 query).1 =
          Outcome.returned (Result.tutorial t) none ∧
        (tutorialResolve d query).1 = Outcome.returned (Result.tutorial t) none) := by
  rw [createTutorial_wellFormed d args author id authorID title authorName
    hid htitle hauthor haid hname]
  refine ⟨rfl, ?_, ?_⟩
  · intro hfresh
    have hloop := tutorialLoop_append_fresh id d.tutorials
      { ID := id, Title := title,
        Author := { ID := authorID, Name := authorName, Tutorials := [] },
        Comments := [] } hfresh rfl
    simp [tutorialResolve, hquery, Value.assertInt, hloop]
  · intro hexists
    cases hold : tutorialLoop id d.tutorials with
    | none =>
      obtain ⟨t, ht, htid⟩ := hexists
      exact absurd htid ((tutorialLoop_eq_none id d.tutorials).mp hold t ht)
    | some t =>
      obtain ⟨pre, post, hsplit, ht, hpre⟩ := tutorialLoop_eq_some id d.tutorials t hold
      have hnew := tutorialLoop_append_of_some id d.tutorials t
        { ID := id, Title := title,
          Author := { ID := authorID, Name := authorName, Tutorials := [] },
          Comments := [] } hold
      refine ⟨pre, t, post, hsplit, ht, hpre, ?_, ?_⟩
      · simp [tutorialResolve, hquery, Value.assertInt, hnew]
      · simp [tutorialResolve, hquery, Value.assertInt, hold]

/-- Witness of C1 (amended): on the seeded dataset, the example mutation with the fresh id 5
is found again, and after a second mutation with the same id 5 the first of the two is still the one found. -/
theorem create_then_get_first_match_witness :
    (∀ t ∈ populate.tutorials, t.ID ≠ 5) ∧
    (createTutorial populate helloArgs).1 =
      Outcome.returned (Result.tutorial helloTutorial) none ∧
    (tutorialResolve (createTutorial populate helloArgs).2 [("id", Value.int 5)]).1 =
      Outcome.returned (Result.tutorial helloTutorial) none ∧
    (∃ t ∈ (createTutorial populate helloArgs).2.tutorials, t.ID = 5) ∧
    (∃ pre t post, (createTutorial populate helloArgs).2.tutorials = pre ++ t :: post ∧
      t.ID = 5 ∧ (∀ x ∈ pre, x.ID ≠ 5) ∧
      (tutorialResolve (createTutorial (createTutorial populate helloArgs).2 againArgs).2
          [("id", Value.int 5)]).1 = Outcome.returned (Result.tutorial t) none ∧
      (tutorialResolve (createTutorial populate helloArgs).2 [("id", Value.int 5)]).1 =
        Outcome.returned (Result.tutorial t) none) :=
  ⟨by decide,
   (create_then_get_first_match populate helloArgs
      [("id", Value.int 10), ("name", Value.str "Ann")] [("id", Value.int 5)] 5 10
      "Hello World" "Ann" rfl rfl rfl rfl rfl rfl).1,
   (create_then_get_first_match populate helloArgs
      [("id", Value.int 10), ("name", Value.str "Ann")] [("id", Value.int 5)] 5 10
      "Hello World" "Ann" rfl rfl rfl rfl rfl rfl).2.1 (by decide),
   by decide,
   (create_then_get_first_match (createTutorial populate helloArgs).2 againArgs
      [("id", Value.int 11), ("name", Value.str "Bob")] [("id", Value.int 5)] 5 11
      "Hello Again" "Bob" rfl rfl rfl rfl rfl rfl).2.2 (by decide)⟩

/-- C1 (counterexample): on the seeded dataset a well-formed `createTutorial` call with
id 1 returns the new tutorial, yet the `tutorial` resolver run with id 1 right after
returns the seeded tutorial 1, not the new one. -/
theorem create_then_get_existing_id :
    index clashArgs "id" = Value.int 1 ∧
    index clashArgs "title" = Value.str "Hello World" ∧
    index clashArgs "author" = Value.map [("id", Value.int 10), ("name", Value.str "Ann")] ∧
    (createTutorial populate clashArgs).1 =
      Outcome.returned (Result.tutorial clashTutorial) none ∧
    (tutorialResolve (createTutorial populate clashArgs).2 [("id", Value.int 1)]).1 =
      Outcome.returned (Result.tutorial tutorial1) none ∧
    (tutorialResolve (createTutorial populate clashArgs).2 [("id", Value.int 1)]).1 ≠
      Outcome.returned (Result.tutorial clashTutorial) none := by
  refine ⟨rfl, rfl, rfl, ?_, ?_, ?_⟩ <;> decide

/-- C2: append exactly once. For every tutorial list and every `createTutorial` call with an
Int id, a String title and a well-formed author input, the list after the call is the list
before it followed by the created tutorial; its length is one more and its first
`len(T)` elements are the old list. -/
theorem createTutorial_appends_once (d : Dataset) (args author : Args) (id authorID : Int)
    (title authorName : String)
    (hid : index args "id" = Value.int id) (htitle : index args "title" = Value.str title)
    (hauthor : index args "author" = Value.map author)
    (haid : index author "id" = Value.int authorID)
    (hname : index author "name" = Value.str authorName) :
    (createTutorial d args).2.tutorials =
      d.tutorials ++
        [{ ID := id, Title := title,
           Author := { ID := authorID, Name := authorName, Tutorials := [] },
           Comments := [] }] ∧
    (createTutorial d args).2.tutorials.length = d.tutorials.length + 1 ∧
    (createTutorial d args).2.tutorials.take d.tutorials.length = d.tutorials := by
  rw [createTutorial_wellFormed d args author id authorID title authorName
    hid htitle hauthor haid hname]
  simp

/-- Witness of C2: the example mutation on the seeded dataset. -/
theorem createTutorial_appends_once_witness :
    (createTutorial populate helloArgs).2.tutorials = populate.tutorials ++ [helloTutorial] ∧
    (createTutorial populate helloArgs).2.tutorials.length = populate.tutorials.length + 1 ∧
    (createTutorial populate helloArgs).2.tutorials.take populate.tutorials.length =
      populate.tutorials :=
  createTutorial_appends_once populate helloArgs
    [("id", Value.int 10), ("name", Value.str "Ann")] 5 10 "Hello World" "Ann"
    rfl rfl rfl rfl rfl

/-- C3: atomic failure on a missing id. A `createTutorial` call whose argument map has no
`id` entry, whatever its title and author are, fails (a type assertion panics) and hands
back the dataset it was given: nothing is appended. -/
theorem createTutorial_missing_id (d : Dataset) (args : Args)
    (hmissing : args.lookup "id" = none) :
    (createTutorial d args).1 = Outcome.panicked ∧
    (createTutorial d args).2 = d ∧
    (createTutorial d args).2.tutorials = d.tutorials := by
  rcases createTutorial_cases d args with h | ⟨author, id, authorID, title, authorName,
    hid, _, _, _, _⟩
  · rw [h]; exact ⟨rfl, rfl, rfl⟩
  · rw [index_of_lookup_none args "id" hmissing] at hid
    cases hid

/-- Witness of C3: a mutation with title and author but no id, on the seeded dataset. -/
theorem createTutorial_missing_id_witness :
    noIdArgs.lookup "id" = none ∧
    (createTutorial populate noIdArgs).1 = Outcome.panicked ∧
    (createTutorial populate noIdArgs).2 = populate ∧
    (createTutorial populate noIdArgs).2.tutorials = populate.tutorials :=
  ⟨rfl, createTutorial_missing_id populate noIdArgs rfl⟩

/-- C4: the mutation returns the newly created entity. Whenever a `createTutorial` call
returns, the returned value is a tutorial whose ID is the `id` argument, whose Title is the
`title` argument and whose Author.ID and Author.Name are the `id` and `name` of the author
input; it is the element the call appended to the tutorial list; the error is nil. -/
theorem createTutorial_returns_created (d : Dataset) (args : Args) (value : Result)
    (err : Option String)
    (hreturned : (createTutorial d args).1 = Outcome.returned value err) :
    ∃ (t : Tutorial) (author : Args),
      value = Result.tutorial t ∧ err = none ∧
      index args "id" = Value.int t.ID ∧ index args "title" = Value.str t.Title ∧
      index args "author" = Value.map author ∧
      index author "id" = Value.int t.Author.ID ∧
      index author "name" = Value.str t.Author.Name ∧
      (createTutorial d args).2.tutorials = d.tutorials ++ [t] := by
  rcases createTutorial_cases d args with h | ⟨author, id, authorID, title, authorName,
    hid, htitle, hauthor, haid, hname⟩
  · rw [h] at hreturned
    cases hreturned
  · rw [createTutorial_wellFormed d args author id authorID title authorName
      hid htitle hauthor haid hname] at hreturned ⊢
    injection hreturned with hvalue herr
    exact ⟨_, author, hvalue.symm, herr.symm, hid, htitle, hauthor, haid, hname, rfl⟩

/-- Witness of C4: the example mutation on the seeded dataset returns. -/
theorem createTutorial_returns_created_witness :
    (createTutorial populate helloArgs).1 =
      Outcome.returned (Result.tutorial helloTutorial) none ∧
    ∃ (t : Tutorial) (author : Args),
      Result.tutorial helloTutorial = Result.tutorial t ∧ (none : Option String) = none ∧
      index helloArgs "id" = Value.int t.ID ∧ index helloArgs "title" = Value.str t.Title ∧
      index helloArgs "author" = Value.map author ∧
      index author "id" = Value.int t.Author.ID ∧
      index author "name" = Value.str t.Author.Name ∧
      (createTutorial populate helloArgs).2.tutorials = populate.tutorials ++ [t] :=
  ⟨by decide,
   createTutorial_returns_created populate helloArgs (Result.tutorial helloTutorial) none
    (by decide)⟩

/-- C5: lookup by ID. With an Int `id` argument the `tutorial` resolver returns the first
tutorial in list order whose ID equals it and the `author` resolver the first such author;
each returns null exactly when no element of its list has that ID, and also when the `id`
argument is absent; neither returns an error or panics, whatever the arguments. -/
theorem resolve_by_id (d : Dataset) (args : Args) (id : Int)
    (hid : index args "id" = Value.int id) :
    ((∃ pre t post, d.tutorials = pre ++ t :: post ∧ t.ID = id ∧ (∀ x ∈ pre, x.ID ≠ id) ∧
        tutorialResolve d args = (Outcome.returned (Result.tutorial t) none, d)) ∨
      ((∀ x ∈ d.tutorials, x.ID ≠ id) ∧
        tutorialResolve d args = (Outcome.returned Result.null none, d))) ∧
    ((tutorialResolve d args).1 = Outcome.returned Result.null none ↔
      ∀ x ∈ d.tutorials, x.ID ≠ id) ∧
    ((∃ pre a post, d.authors = pre ++ a :: post ∧ a.ID = id ∧ (∀ x ∈ pre, x.ID ≠ id) ∧
        authorResolve d args = (Outcome.returned (Result.author a) none, d)) ∨
      ((∀ x ∈ d.authors, x.ID ≠ id) ∧
        authorResolve d args = (Outcome.returned Result.null none, d))) ∧
    ((authorResolve d args).1 = Outcome.returned Result.null none ↔
      ∀ x ∈ d.authors, x.ID ≠ id) ∧
    (∀ other : Args, other.lookup "id" = none →
      (tutorialResolve d other).1 = Outcome.returned Result.null none ∧
      (authorResolve d other).1 = Outcome.returned Result.null none) ∧
    (∀ other : Args, ∃ v w,
      (tutorialResolve d other).1 = Outcome.returned v none ∧
      (authorResolve d other).1 = Outcome.returned w none) := by
  refine ⟨?_, ?_, ?_, ?_, ?_, ?_⟩
  · cases hloop : tutorialLoop id d.tutorials with
    | none =>
      right
      exact ⟨(tutorialLoop_eq_none id d.tutorials).mp hloop,
        by simp [tutorialResolve, hid, Value.assertInt, hloop]⟩
    | some t =>
      left
      obtain ⟨pre, post, hsplit, ht, hpre⟩ := tutorialLoop_eq_some id d.tutorials t hloop
      exact ⟨pre, t, post, hsplit, ht, hpre,
        by simp [tutorialResolve, hid, Value.assertInt, hloop]⟩
  · rw [← tutorialLoop_eq_none]
    cases hloop : tutorialLoop id d.tutorials <;>
      simp [tutorialResolve, hid, Value.assertInt, hloop]
  · cases hloop : authorLoop id d.authors with
    | none =>
      right
      exact ⟨(authorLoop_eq_none id d.authors).mp hloop,
        by simp [authorResolve, hid, Value.assertInt, hloop]⟩
    | some a =>
      left
      obtain ⟨pre, post, hsplit, ha, hpre⟩ := authorLoop_eq_some id d.authors a hloop
      exact ⟨pre, a, post, hsplit, ha, hpre,
        by simp [authorResolve, hid, Value.assertInt, hloop]⟩
  · rw [← authorLoop_eq_none]
    cases hloop : authorLoop id d.authors <;>
      simp [authorResolve, hid, Value.assertInt, hloop]
  · intro other hother
    simp [tutorialResolve, authorResolve, index_of_lookup_none other "id" hother,
      Value.assertInt]
  · intro other
    obtain ⟨v, hv⟩ := tutorialResolve_returns d other
    obtain ⟨w, hw⟩ := authorResolve_returns d other
    exact ⟨v, w, hv, hw⟩

/-- Witness of C5: id 2 on the seeded dataset. -/
theorem resolve_by_id_witness :
    tutorialResolve populate [("id", Value.int 2)] =
      (Outcome.returned (Result.tutorial tutorial2) none, populate) ∧
    authorResolve populate [("id", Value.int 2)] =
      (Outcome.returned (Result.author author2) none, populate) ∧
    ((tutorialResolve populate [("id", Value.int 2)]).1 = Outcome.returned Result.null none ↔
      ∀ x ∈ populate.tutorials, x.ID ≠ 2) :=
  ⟨by decide, by decide, (resolve_by_id populate [("id", Value.int 2)] 2 rfl).2.1⟩

/-- C6: seeded list. On the dataset returned by `populate` the `tutorialList` resolver
returns, with a nil error, a two-element list whose ids are 1 then 2 and whose titles are
"Go GraphQL Tutorial" then "Pandit Football Tutorial". -/
theorem tutorialList_seeded (args : Args) :
    ∃ ts : List Tutorial,
      (tutorialListResolve populate args).1 = Outcome.returned (Result.tutorialList ts) none ∧
      ts.length = 2 ∧
      ts.map (fun t => t.ID) = [1, 2] ∧
      ts.map (fun t => t.Title) = ["Go GraphQL Tutorial", "Pandit Football Tutorial"] :=
  ⟨[tutorial1, tutorial2], rfl, rfl, rfl, rfl⟩

/-- C7 (failing input): the argument maps `noAuthorArgs` (id and title, no author) and
`noNameArgs` (author input without name) conform to the declared arguments of
`createTutorial`, and the resolver panics on both, on every dataset. -/
theorem createTutorial_panics_without_author (d : Dataset) :
    conforms createTutorialArgs noAuthorArgs = true ∧
    createTutorial d noAuthorArgs = (Outcome.panicked, d) ∧
    conforms createTutorialArgs noNameArgs = true ∧
    createTutorial d noNameArgs = (Outcome.panicked, d) :=
  ⟨by decide, rfl, by decide, rfl⟩

/-- C8: query idempotence. Every resolver of the root query type leaves the dataset (both
lists) as it found it, so running it twice in a row with the same arguments gives equal
results. -/
theorem query_idempotent (name : String) (r : Resolver) (hfield : (name, r) ∈ fields)
    (d : Dataset) (args : Args) :
    (r d args).2 = d ∧
    (r d args).2.tutorials = d.tutorials ∧ (r d args).2.authors = d.authors ∧
    r (r d args).2 args = r d args := by
  have hstate : (r d args).2 = d := by
    simp only [fields, List.mem_cons, Prod.mk.injEq, List.mem_nil_iff, or_false] at hfield
    rcases hfield with ⟨_, h⟩ | ⟨_, h⟩ | ⟨_, h⟩ | ⟨_, h⟩ <;> subst h
    · exact tutorialResolve_snd d args
    · exact authorResolve_snd d args
    · rfl
    · rfl
  refine ⟨hstate, ?_, ?_, ?_⟩ <;> rw [hstate]

/-- Witness of C8: the `tutorial` field with id 1 on the seeded dataset. -/
theorem query_idempotent_witness :
    ("tutorial", tutorialResolve) ∈ fields ∧
    (tutorialResolve populate [("id", Value.int 1)]).2 = populate ∧
    (tutorialResolve populate [("id", Value.int 1)]).2.tutorials = populate.tutorials ∧
    (tutorialResolve populate [("id", Value.int 1)]).2.authors = populate.authors ∧
    tutorialResolve (tutorialResolve populate [("id", Value.int 1)]).2 [("id", Value.int 1)] =
      tutorialResolve populate [("id", Value.int 1)] :=
  ⟨List.Mem.head _,
   query_idempotent "tutorial" tutorialResolve (List.Mem.head _) populate
    [("id", Value.int 1)]⟩

/-- C10: `createTutorial` touches only the tutorial list. For every dataset and every call,
returning or panicking, the author list after the call is the author list before it, so
`authorList` and `author` give the same result before and after, for every argument map of
the query (in particular one carrying the author id of the mutation's author input). -/
theorem createTutorial_keeps_authors (d : Dataset) (args query : Args) :
    (createTutorial d args).2.authors = d.authors ∧
    (authorListResolve (createTutorial d args).2 query).1 = (authorListResolve d query).1 ∧
    (authorResolve (createTutorial d args).2 query).1 = (authorResolve d query).1 := by
  have h := createTutorial_authors d args
  refine ⟨h, ?_, ?_⟩
  · simp [authorListResolve, h]
  · exact authorResolve_fst_congr _ d query h

end GolangGraphql
